import Mathlib

set_option maxRecDepth 16384

/-!
Verification of the portfolio backend (main.py, schemas.py) against its
natural-language specification.  The Python code is shallowly embedded:
each FastAPI route handler becomes an executable Lean function, optional
request fields become `Option String`, Python truthiness of an optional
string is made explicit, and the document-store gateway is modelled as an
explicit state threaded through the write handlers.
-/

namespace Portfolio

/-- The apostrophe character, as a one-character string (codepoint 39). -/
def apos : String := String.singleton (Char.ofNat 39)

/-- Python truthiness of an `Optional[str]`: `None` and `""` are falsy. -/
def strTruthy : Option String → Bool
  | none => false
  | some s => s ≠ ""

/-- Python `a or b` on an `Optional[str]` `a`: yields `b` when `a` is
`None` or the empty string, else the string held by `a`. -/
def pyOr (o : Option String) (d : String) : String :=
  match o with
  | none => d
  | some s => if s = "" then d else s

/-- `listStartsWith l pat` : does `l` begin with `pat`?  Used to embed the
Python substring test `k in s`. -/
def listStartsWith : List Char → List Char → Bool
  | _, [] => true
  | [], _ :: _ => false
  | a :: as, b :: bs => a = b && listStartsWith as bs

/-- `hasSub l pat` : does `pat` occur contiguously inside `l`? -/
def hasSub : List Char → List Char → Bool
  | [], pat => pat.isEmpty
  | a :: t, pat => listStartsWith (a :: t) pat || hasSub t pat

/-- Embeds the Python membership test `pat in s` on strings. -/
def strContainsSub (s pat : String) : Bool :=
  hasSub s.toList pat.toList

/-- Embeds Python `s.lower()` (the keywords compared against it are plain
ASCII, so ASCII character lowering is the relevant behavior). -/
def strLower (s : String) : String :=
  ⟨s.toList.map Char.toLower⟩

/-- Request model `SuggestionRequest` (main.py): four optional fields. -/
structure SuggestionRequest where
  name : Option String := none
  email : Option String := none
  subject : Option String := none
  message : Option String := none
deriving Repr, DecidableEq

/-- Response model `SuggestionResponse` (main.py): both fields required. -/
structure SuggestionResponse where
  subject : String
  message : String
deriving Repr, DecidableEq

/-- The default subject string `"Let's connect"` (main.py line 74). -/
def letsConnect : String := "Let" ++ apos ++ "s connect"

/-- The subject used for long messages (main.py line 78). -/
def detailedSubject : String := "Re: Your detailed message—thank you!"

/-- The subject used when a keyword is found (main.py line 80). -/
def collabSubject : String :=
  "Excited to collaborate—here" ++ apos ++ "s a quick note"

/-- The keyword list of main.py line 79. -/
def keywords : List String := ["hire", "project", "collab"]

/-- The appended excerpt sentence (main.py line 84): quotes the first 80
characters of the caller's message. -/
def hintText (m : String) : String :=
  "\n\nI read your note about \"" ++ m.take 80 ++ "\"—let" ++ apos ++
    "s explore it further."

/-- The fixed reply template of main.py lines 86–92, with the greeting
name and the optional excerpt sentence substituted in. -/
def bodyTemplate (introName bodyHint : String) : String :=
  "Hi " ++ introName ++
    ",\n\nThanks for reaching out. I" ++ apos ++
    "m thrilled you stopped by my portfolio. Share a bit more about your goals, timeline, and any references you love—I" ++
    apos ++ "ll propose a clear next step. " ++ bodyHint ++
    "\n\nBest,\nMr. [Full Name]"

/-- Embedding of the handler `ai_suggest` (main.py lines 71–94).
`payload.subject or ...` and `payload.name or ...` become `pyOr`; the two
guards `payload.message and ...` / `payload.subject and ...` become
`strTruthy` tests, exactly as Python evaluates them. -/
def aiSuggest (p : SuggestionRequest) : SuggestionResponse :=
  let subj0 := pyOr p.subject letsConnect
  let introName := pyOr p.name "there"
  let subj :=
    if strTruthy p.message && decide ((p.message.getD "").length > 120) then
      detailedSubject
    else if strTruthy p.subject &&
        keywords.any (fun k => strContainsSub (strLower (p.subject.getD "")) k) then
      collabSubject
    else subj0
  let bodyHint :=
    if strTruthy p.message then hintText (p.message.getD "") else ""
  { subject := subj, message := bodyTemplate introName bodyHint }

/-- The spec's keyword condition: the subject contains one of "hire",
"project", "collab" case-insensitively. -/
def specKeywordHit (s : String) : Bool :=
  keywords.any (fun k => strContainsSub (strLower s) k)

/-- Subject selection exactly as the claim words it (spec-following
definition, for comparison with `aiSuggest`): "supplied" is read as the
field being present, so a supplied empty subject is echoed verbatim. -/
def claimedSubject (p : SuggestionRequest) : String :=
  let rest :=
    match p.subject with
    | some s => if specKeywordHit s then collabSubject else s
    | none => letsConnect
  match p.message with
  | some m => if m.length > 120 then detailedSubject else rest
  | none => rest

/-- Subject selection as amended: a supplied subject is echoed verbatim
only when non-empty; an absent or empty subject yields the default. -/
def claimedSubjectAmended (p : SuggestionRequest) : String :=
  let rest :=
    match p.subject with
    | some s =>
        if specKeywordHit s then collabSubject
        else if s = "" then letsConnect else s
    | none => letsConnect
  match p.message with
  | some m => if m.length > 120 then detailedSubject else rest
  | none => rest

/-- Message body exactly as the claim words it (spec-following definition):
the excerpt sentence is included iff a message field is present, and the
greeting uses the caller's name whenever the name field is present. -/
def claimedBody (p : SuggestionRequest) : String :=
  bodyTemplate (match p.name with | some n => n | none => "there")
    (match p.message with | some m => hintText m | none => "")

/-- Message body as amended: the excerpt sentence is included iff a
non-empty message was supplied, and the greeting name defaults to "there"
when the name is absent or empty. -/
def claimedBodyAmended (p : SuggestionRequest) : String :=
  bodyTemplate
    (match p.name with
     | some n => if n = "" then "there" else n
     | none => "there")
    (match p.message with
     | some m => if m = "" then "" else hintText m
     | none => "")

/-- Simplified syntactic email check standing in for pydantic's `EmailStr`
(a library validator, not repository code): exactly one `@`, a non-empty
local part, and a domain that is non-empty, contains a dot and no space.
The claims depend only on some syntactically invalid strings (such as one
with no `@`) being rejected, not on the precise grammar. -/
def validEmail (s : String) : Bool :=
  let cs := s.toList
  (cs.count '@' = 1) &&
    match cs.splitOn '@' with
    | [loc, dom] =>
        !loc.isEmpty && !dom.isEmpty && dom.contains '.' && !cs.contains ' '
    | _ => false

/-- Schema-layer model `Message` (schemas.py lines 44–53). -/
structure Message where
  name : String
  email : String
  subject : Option String := none
  body : String
  created_at : Option Nat := none
deriving Repr, DecidableEq

/-- Raw JSON body of a POST /contact request: every field optional at the
wire level; validation happens at the route boundary. -/
structure RawContact where
  name : Option String := none
  email : Option String := none
  subject : Option String := none
  body : Option String := none
  created_at : Option Nat := none
deriving Repr, DecidableEq

/-- FastAPI's request-model validation for `Message`: required fields must
be present and the email must be syntactically valid, otherwise the
request is rejected before the handler body runs. -/
def parseMessage (r : RawContact) : Except Unit Message :=
  match r.name, r.email, r.body with
  | some n, some e, some b =>
      if validEmail e then
        .ok { name := n, email := e, subject := r.subject, body := b,
              created_at := r.created_at }
      else .error ()
  | _, _, _ => .error ()

/-- Request model `InteractionIn` (main.py lines 106–110): note it has no
`created_at` field, so a caller cannot pass one through it. -/
structure InteractionIn where
  session_id : String
  event : String
  value : Option String := none
  path : Option String := none
deriving Repr, DecidableEq

/-- Raw JSON body of a POST /interactions request.  A caller may write a
`created_at` member, but pydantic ignores members that are not declared on
`InteractionIn`, so `parseInteraction` drops it. -/
structure RawInteraction where
  session_id : Option String := none
  event : Option String := none
  value : Option String := none
  path : Option String := none
  created_at : Option Nat := none
deriving Repr, DecidableEq

/-- FastAPI's request-model validation for `InteractionIn`. -/
def parseInteraction (r : RawInteraction) : Except Unit InteractionIn :=
  match r.session_id, r.event with
  | some s, some e =>
      .ok { session_id := s, event := e, value := r.value, path := r.path }
  | _, _ => .error ()

/-- The interaction document handed to the store (main.py lines 115–117):
the dump of `InteractionIn` plus a `created_at` stamp. -/
structure InteractionDoc where
  session_id : String
  event : String
  value : Option String := none
  path : Option String := none
  created_at : Option Nat := none
deriving Repr, DecidableEq

/-- The document store's state, as the write handlers see it: whether a
connection exists, an optional pending write failure (its message), and
the contents of the two collections written by the API. -/
structure Store where
  connected : Bool
  failWrite : Option String := none
  messages : List Message := []
  interactions : List InteractionDoc := []
deriving Repr, DecidableEq

/-- Message shown when the store has no connection. -/
def dbUnavailable : String := "Database not available"

/-- Modelled from the spec: `create_document` lives in database.py, which
is not under src/.  Section 4.2 gives it the shape
`insert(collection_name, record) -> document_id`, failing when no
connection exists or the underlying write fails, and the data-model table
declares `created_at` "server-assigned if absent" for ContactMessage — so
the gateway stamps `created_at` with its clock `t` when the record left it
absent.  This is the message-collection instance. -/
def create_documentMessage (st : Store) (t : Nat) (m : Message) :
    Except String (String × Store) :=
  if st.connected then
    match st.failWrite with
    | some e => .error e
    | none =>
        .ok ("doc" ++ toString st.messages.length,
          { st with messages :=
              st.messages ++ [{ m with created_at := some (m.created_at.getD t) }] })
  else .error dbUnavailable

/-- Modelled from the spec: the interaction-collection instance of
database.py's `create_document` (see `create_documentMessage`); the
handler has already stamped `created_at`, so the stamp-if-absent rule is
inert here. -/
def create_documentInteraction (st : Store) (t : Nat) (d : InteractionDoc) :
    Except String (String × Store) :=
  if st.connected then
    match st.failWrite with
    | some e => .error e
    | none =>
        .ok ("doc" ++ toString st.interactions.length,
          { st with interactions :=
              st.interactions ++ [{ d with created_at := some (d.created_at.getD t) }] })
  else .error dbUnavailable

/-- An HTTP failure: FastAPI's `HTTPException(status_code, detail)` or the
framework's 422 validation rejection. -/
structure HttpError where
  status : Nat
  detail : String
deriving Repr, DecidableEq

/-- Detail of the framework's 422 validation rejection (field-level text,
abstracted to a fixed marker since no claim inspects it). -/
def validationDetail : String := "validation error"

/-- Success body of the write endpoints: `{"status": "ok", "id": ...}`. -/
structure WriteOk where
  status : String
  id : String
deriving Repr, DecidableEq

/-- Embedding of POST /contact (main.py lines 97–103) including the route
boundary: invalid input is rejected with 422 before the handler body runs;
inside the handler, `create_document` is called and any exception is
mapped to `HTTPException(500, str(e))`.  `t` is the gateway clock. -/
def contactRoute (raw : RawContact) (st : Store) (t : Nat) :
    Except HttpError WriteOk × Store :=
  match parseMessage raw with
  | .error _ => (.error ⟨422, validationDetail⟩, st)
  | .ok msg =>
      match create_documentMessage st t msg with
      | .error e => (.error ⟨500, e⟩, st)
      | .ok (id, st2) => (.ok ⟨"ok", id⟩, st2)

/-- Embedding of POST /interactions (main.py lines 112–120): validate,
dump the payload, stamp `created_at` with the current time `t`, insert;
exceptions map to `HTTPException(500, str(e))`. -/
def interactionRoute (raw : RawInteraction) (st : Store) (t : Nat) :
    Except HttpError WriteOk × Store :=
  match parseInteraction raw with
  | .error _ => (.error ⟨422, validationDetail⟩, st)
  | .ok p =>
      let data : InteractionDoc :=
        { session_id := p.session_id, event := p.event, value := p.value,
          path := p.path, created_at := some t }
      match create_documentInteraction st t data with
      | .error e => (.error ⟨500, e⟩, st)
      | .ok (id, st2) => (.ok ⟨"ok", id⟩, st2)

/-- Embedding of POST /ai/suggest as a route over the shared store state:
the handler body (main.py lines 71–94) reads none of it and performs no
store call, so the embedded route ignores and returns the state. -/
def aiSuggestRoute (p : SuggestionRequest) (st : Store) :
    Except HttpError SuggestionResponse × Store :=
  (.ok (aiSuggest p), st)

/-- Schema-layer model `Testimonial` (schemas.py lines 66–74). -/
structure Testimonial where
  author : String
  role : Option String := none
  quote : String
  avatar_url : Option String := none
deriving Repr, DecidableEq

/-- Schema-layer model `Project` (schemas.py lines 76–86). -/
structure Project where
  title : String
  description : String
  tags : List String := []
  image_url : Option String := none
  demo_url : Option String := none
  source_url : Option String := none
deriving Repr, DecidableEq

/-- A raw testimonial document as fetched from the store: a storage
identifier plus the model's fields, any of which may be absent. -/
structure RawTDoc where
  mongoId : Option String := none
  author : Option String := none
  role : Option String := none
  quote : Option String := none
  avatar_url : Option String := none
deriving Repr, DecidableEq

/-- `Testimonial(**d)` after `d.pop("_id", None)` (main.py lines 130–131):
construction succeeds iff the required fields are present. -/
def parseTestimonial (d : RawTDoc) : Option Testimonial :=
  match d.author, d.quote with
  | some a, some q => some ⟨a, d.role, q, d.avatar_url⟩
  | _, _ => none

/-- A raw project document as fetched from the store. -/
structure RawPDoc where
  mongoId : Option String := none
  title : Option String := none
  description : Option String := none
  tags : Option (List String) := none
  image_url : Option String := none
  demo_url : Option String := none
  source_url : Option String := none
deriving Repr, DecidableEq

/-- `Project(**d)` after popping `_id` (main.py lines 153–154); `tags`
defaults to the empty list when absent. -/
def parseProject (d : RawPDoc) : Option Project :=
  match d.title, d.description with
  | some t, some desc =>
      some ⟨t, desc, d.tags.getD [], d.image_url, d.demo_url, d.source_url⟩
  | _, _ => none

/-- The fallback testimonials built on the empty-result path
(main.py lines 134–138), transcribed literally. -/
def tFallbackEmpty : List Testimonial :=
  [⟨"Ava Chen", some "Creative Director",
    "A visionary with a rare blend of artistry and engineering.",
    some "https://i.pravatar.cc/150?img=68"⟩,
   ⟨"Liam Patel", some "CTO, Nova Labs",
    "Turns impossible ideas into delightful realities.",
    some "https://i.pravatar.cc/150?img=12"⟩,
   ⟨"Maya Rodríguez", some "Founder, Helix Studio",
    "Every interaction feels like magic—truly next-level.",
    some "https://i.pravatar.cc/150?img=32"⟩]

/-- The fallback testimonials built on the exception path
(main.py lines 141–145), transcribed literally as a separate constant. -/
def tFallbackError : List Testimonial :=
  [⟨"Ava Chen", some "Creative Director",
    "A visionary with a rare blend of artistry and engineering.",
    some "https://i.pravatar.cc/150?img=68"⟩,
   ⟨"Liam Patel", some "CTO, Nova Labs",
    "Turns impossible ideas into delightful realities.",
    some "https://i.pravatar.cc/150?img=12"⟩,
   ⟨"Maya Rodríguez", some "Founder, Helix Studio",
    "Every interaction feels like magic—truly next-level.",
    some "https://i.pravatar.cc/150?img=32"⟩]

/-- The fallback projects built on the empty-result path
(main.py lines 156–181), transcribed literally. -/
def pFallbackEmpty : List Project :=
  [⟨"Nebula UI System",
    "A component library with cinematic motion and generative themes.",
    ["Design System", "Framer Motion", "AI Skinning"],
    some "https://images.unsplash.com/photo-1517694712202-14dd9538aa97?q=80&w=1400&auto=format&fit=crop",
    some "#", some "#"⟩,
   ⟨"Aurora Graph",
    "Real-time data artistry—particles, wavefields, living charts.",
    ["WebGL", "D3", "Shaders"],
    some "https://images.unsplash.com/photo-1507874457470-272b3c8d8ee2?q=80&w=1400&auto=format&fit=crop",
    some "#", some "#"⟩,
   ⟨"Echo Spaces",
    "Immersive 3D microsites with spatial audio and parallax.",
    ["Three.js", "Audio", "Spline"],
    some "https://images.unsplash.com/photo-1470225620780-dba8ba36b745?q=80&w=1400&auto=format&fit=crop",
    some "#", some "#"⟩]

/-- The fallback projects built on the exception path
(main.py lines 184–209), transcribed literally as a separate constant. -/
def pFallbackError : List Project :=
  [⟨"Nebula UI System",
    "A component library with cinematic motion and generative themes.",
    ["Design System", "Framer Motion", "AI Skinning"],
    some "https://images.unsplash.com/photo-1517694712202-14dd9538aa97?q=80&w=1400&auto=format&fit=crop",
    some "#", some "#"⟩,
   ⟨"Aurora Graph",
    "Real-time data artistry—particles, wavefields, living charts.",
    ["WebGL", "D3", "Shaders"],
    some "https://images.unsplash.com/photo-1507874457470-272b3c8d8ee2?q=80&w=1400&auto=format&fit=crop",
    some "#", some "#"⟩,
   ⟨"Echo Spaces",
    "Immersive 3D microsites with spatial audio and parallax.",
    ["Three.js", "Audio", "Spline"],
    some "https://images.unsplash.com/photo-1470225620780-dba8ba36b745?q=80&w=1400&auto=format&fit=crop",
    some "#", some "#"⟩]

/-- The cleaning loop of main.py lines 128–131: build the list of parsed
testimonials, failing (raising) as soon as one document does not parse. -/
def cleanTestimonials : List RawTDoc → Option (List Testimonial)
  | [] => some []
  | d :: ds =>
      match parseTestimonial d, cleanTestimonials ds with
      | some t, some ts => some (t :: ts)
      | _, _ => none

/-- The cleaning loop of main.py lines 151–154 for projects. -/
def cleanProjects : List RawPDoc → Option (List Project)
  | [] => some []
  | d :: ds =>
      match parseProject d, cleanProjects ds with
      | some t, some ts => some (t :: ts)
      | _, _ => none

/-- Embedding of GET /testimonials (main.py lines 123–145).  `fetch` is
the outcome of `get_documents("testimonial")`: either a raised error (its
message) or a list of raw documents.  The whole body sits in a
`try/except`, so a fetch error or a failed `Testimonial(**d)` construction
lands on the exception fallback; an empty cleaned list is replaced by the
seed fallback; the route never raises an HTTP failure. -/
def getTestimonials (fetch : Except String (List RawTDoc)) :
    Except HttpError (List Testimonial) :=
  match fetch with
  | .error _ => .ok tFallbackError
  | .ok docs =>
      match cleanTestimonials docs with
      | none => .ok tFallbackError
      | some cleaned => .ok (if cleaned.isEmpty then tFallbackEmpty else cleaned)

/-- Embedding of GET /projects (main.py lines 147–209), same shape as
`getTestimonials`. -/
def getProjects (fetch : Except String (List RawPDoc)) :
    Except HttpError (List Project) :=
  match fetch with
  | .error _ => .ok pFallbackError
  | .ok docs =>
      match cleanProjects docs with
      | none => .ok pFallbackError
      | some cleaned => .ok (if cleaned.isEmpty then pFallbackEmpty else cleaned)

/-- Field declarations of `Message` (schemas.py): name and required flag,
in declaration order. -/
def messageFields : List (String × Bool) :=
  [("name", true), ("email", true), ("subject", false), ("body", true),
   ("created_at", false)]

/-- Field declarations of `Interaction` (schemas.py). -/
def interactionFields : List (String × Bool) :=
  [("session_id", true), ("event", true), ("value", false), ("path", false),
   ("created_at", false)]

/-- Field declarations of `Testimonial` (schemas.py). -/
def testimonialFields : List (String × Bool) :=
  [("author", true), ("role", false), ("quote", true), ("avatar_url", false)]

/-- Field declarations of `Project` (schemas.py); `tags` has a default, so
it is not required. -/
def projectFields : List (String × Bool) :=
  [("title", true), ("description", true), ("tags", false),
   ("image_url", false), ("demo_url", false), ("source_url", false)]

/-- Field declarations of the example model `User` (schemas.py). -/
def userFields : List (String × Bool) :=
  [("name", true), ("email", true), ("address", false), ("age", false),
   ("is_active", false)]

/-- Field declarations of the example model `Product` (schemas.py). -/
def productFields : List (String × Bool) :=
  [("title", true), ("description", false), ("price", true),
   ("category", true), ("in_stock", false)]

/-- The `required` list of a model's JSON schema: the names of the fields
declared without a default, in declaration order. -/
def requiredOf (fs : List (String × Bool)) : List String :=
  (fs.filter (·.2)).map (·.1)

/-- Embedding of GET /schema (main.py lines 212–217): one entry per
pydantic model found in schemas.py (`getmembers` enumerates them in
alphabetical order, `BaseModel` itself excluded), mapped to the required
list of its JSON schema. -/
def get_schema : List (String × List String) :=
  [("Interaction", requiredOf interactionFields),
   ("Message", requiredOf messageFields),
   ("Product", requiredOf productFields),
   ("Project", requiredOf projectFields),
   ("Testimonial", requiredOf testimonialFields),
   ("User", requiredOf userFields)]

/-! ## Helper lemmas -/

/-- No keyword occurs in the empty subject. -/
theorem specKeywordHit_empty : specKeywordHit "" = false := by decide

/-- The subject computed by `aiSuggest`, written with `specKeywordHit`. -/
theorem aiSuggest_subject_eq (p : SuggestionRequest) :
    (aiSuggest p).subject =
      if strTruthy p.message && decide ((p.message.getD "").length > 120) then
        detailedSubject
      else if strTruthy p.subject && specKeywordHit (p.subject.getD "") then
        collabSubject
      else pyOr p.subject letsConnect := rfl

/-- The message computed by `aiSuggest`, as the filled-in template. -/
theorem aiSuggest_message_eq (p : SuggestionRequest) :
    (aiSuggest p).message =
      bodyTemplate (pyOr p.name "there")
        (if strTruthy p.message then hintText (p.message.getD "") else "") := rfl

/-! ## Theorems -/

/-- Claim C1, counterexample: with a supplied empty subject the claim as
stated demands the subject be echoed verbatim (the empty string), but the
code returns the default "Let's connect". -/
theorem ai_subject_empty_counterexample :
    claimedSubject ⟨none, none, some "", none⟩ = "" ∧
    (aiSuggest ⟨none, none, some "", none⟩).subject = letsConnect ∧
    letsConnect ≠ "" := by
  refine ⟨?_, ?_, by decide⟩
  · simp [claimedSubject, specKeywordHit_empty]
  · rw [aiSuggest_subject_eq]; rfl

/-- Claim C1 (amended): the returned subject follows the precedence
long-message → keyword → caller's subject, where the caller's subject is
echoed verbatim only when non-empty; an absent or empty subject yields
"Let's connect". -/
theorem ai_subject_selection (p : SuggestionRequest) :
    (aiSuggest p).subject = claimedSubjectAmended p := by
  obtain ⟨n, e, s, m⟩ := p
  rw [aiSuggest_subject_eq]
  cases m with
  | none =>
    cases s with
    | none => simp [claimedSubjectAmended, strTruthy, pyOr]
    | some s' =>
      by_cases hs : s' = ""
      · subst hs
        simp [claimedSubjectAmended, strTruthy, pyOr, specKeywordHit_empty]
      · by_cases hk : specKeywordHit s' = true
        · simp [claimedSubjectAmended, strTruthy, pyOr, hs, hk]
        · simp [claimedSubjectAmended, strTruthy, pyOr, hs, hk]
  | some m' =>
    by_cases hm : m' = ""
    · subst hm
      cases s with
      | none => simp [claimedSubjectAmended, strTruthy, pyOr]
      | some s' =>
        by_cases hs : s' = ""
        · subst hs
          simp [claimedSubjectAmended, strTruthy, pyOr, specKeywordHit_empty]
        · by_cases hk : specKeywordHit s' = true
          · simp [claimedSubjectAmended, strTruthy, pyOr, hs, hk]
          · simp [claimedSubjectAmended, strTruthy, pyOr, hs, hk]
    · by_cases hl : m'.length > 120
      · simp [claimedSubjectAmended, strTruthy, hm, hl]
      · cases s with
        | none => simp [claimedSubjectAmended, strTruthy, pyOr, hm, hl]
        | some s' =>
          by_cases hs : s' = ""
          · subst hs
            simp [claimedSubjectAmended, strTruthy, pyOr, specKeywordHit_empty,
              hm, hl]
          · by_cases hk : specKeywordHit s' = true
            · simp [claimedSubjectAmended, strTruthy, pyOr, hm, hl, hs, hk]
            · simp [claimedSubjectAmended, strTruthy, pyOr, hm, hl, hs, hk]

/-- Claim C2, counterexample: with a supplied empty name and empty
message, the claim as stated demands the greeting use the empty name and
the excerpt sentence be included, but the code greets "there" and appends
no excerpt. -/
theorem ai_body_empty_counterexample :
    (aiSuggest ⟨some "", none, none, some ""⟩).message = bodyTemplate "there" "" ∧
    claimedBody ⟨some "", none, none, some ""⟩ ≠
      (aiSuggest ⟨some "", none, none, some ""⟩).message :=
  ⟨rfl, by decide⟩

/-- Claim C2 (amended): the returned message body is the fixed template
with the greeting name substituted (the caller's name when supplied
non-empty, else "there"), and the sentence quoting the first 80 characters
of the caller's message is included iff a non-empty message was supplied;
for empty input the message contains "Hi there,". -/
theorem ai_body_template :
    (∀ p, (aiSuggest p).message = claimedBodyAmended p) ∧
    strContainsSub (aiSuggest ⟨none, none, none, none⟩).message "Hi there," = true := by
  constructor
  · intro p
    obtain ⟨n, e, s, m⟩ := p
    rw [aiSuggest_message_eq]
    cases n with
    | none =>
      cases m with
      | none => simp [claimedBodyAmended, strTruthy, pyOr]
      | some m' =>
        by_cases hm : m' = ""
        · subst hm; simp [claimedBodyAmended, strTruthy, pyOr]
        · simp [claimedBodyAmended, strTruthy, pyOr, hm]
    | some n' =>
      by_cases hn : n' = ""
      · subst hn
        cases m with
        | none => simp [claimedBodyAmended, strTruthy, pyOr]
        | some m' =>
          by_cases hm : m' = ""
          · subst hm; simp [claimedBodyAmended, strTruthy, pyOr]
          · simp [claimedBodyAmended, strTruthy, pyOr, hm]
      · cases m with
        | none => simp [claimedBodyAmended, strTruthy, pyOr, hn]
        | some m' =>
          by_cases hm : m' = ""
          · subst hm
            simp [claimedBodyAmended, strTruthy, pyOr, hn]
          · simp [claimedBodyAmended, strTruthy, pyOr, hn, hm]
  · decide

/-- Claim C3: on an empty fetch result or a raised store error, each
listing endpoint returns its fixed three-item fallback list, and for every
fetch outcome the response is a success (never an HTTP failure). -/
theorem listing_fallback_on_empty_or_error :
    (∀ e, getTestimonials (.error e) = .ok tFallbackError) ∧
    getTestimonials (.ok []) = .ok tFallbackEmpty ∧
    tFallbackEmpty.length = 3 ∧
    (∀ fetch, ∃ l, getTestimonials fetch = .ok l) ∧
    (∀ e, getProjects (.error e) = .ok pFallbackError) ∧
    getProjects (.ok []) = .ok pFallbackEmpty ∧
    pFallbackEmpty.length = 3 ∧
    (∀ fetch, ∃ l, getProjects fetch = .ok l) := by
  refine ⟨fun e => rfl, rfl, rfl, ?_, fun e => rfl, rfl, rfl, ?_⟩
  · intro fetch
    cases fetch with
    | error e => exact ⟨tFallbackError, rfl⟩
    | ok docs =>
      cases h : cleanTestimonials docs with
      | none => exact ⟨tFallbackError, by simp [getTestimonials, h]⟩
      | some cleaned =>
        exact ⟨if cleaned.isEmpty then tFallbackEmpty else cleaned,
          by simp [getTestimonials, h]⟩
  · intro fetch
    cases fetch with
    | error e => exact ⟨pFallbackError, rfl⟩
    | ok docs =>
      cases h : cleanProjects docs with
      | none => exact ⟨pFallbackError, by simp [getProjects, h]⟩
      | some cleaned =>
        exact ⟨if cleaned.isEmpty then pFallbackEmpty else cleaned,
          by simp [getProjects, h]⟩

/-- Claim C4: the listing value returned on the empty-result path equals
the value returned on the exception path — the two transcribed fallback
literals are identical, for testimonials and for projects. -/
theorem fallback_paths_agree :
    tFallbackEmpty = tFallbackError ∧
    pFallbackEmpty = pFallbackError ∧
    (∀ e, getTestimonials (.ok []) = getTestimonials (.error e)) ∧
    (∀ e, getProjects (.ok []) = getProjects (.error e)) :=
  ⟨rfl, rfl, fun _ => rfl, fun _ => rfl⟩

/-- Claim C5: POST /ai/suggest is deterministic — its response does not
depend on the store state, it leaves the store state unchanged, and a
second call with the identical payload yields the identical response. -/
theorem ai_suggest_deterministic :
    ∀ (p : SuggestionRequest) (st st' : Store),
      (aiSuggestRoute p st).1 = (aiSuggestRoute p st').1 ∧
      (aiSuggestRoute p st).2 = st ∧
      (aiSuggestRoute p ((aiSuggestRoute p st).2)).1 = (aiSuggestRoute p st).1 :=
  fun _ _ _ => ⟨rfl, rfl, rfl⟩

/-- Claim C6: for a valid contact submission that omits created_at, the
record handed to the store has created_at server-assigned (the gateway's
clock `t`), not left absent. -/
theorem contact_created_at_server_assigned
    (n e b : String) (s : Option String) (st : Store) (t : Nat)
    (hv : validEmail e = true) (hcon : st.connected = true)
    (hf : st.failWrite = none) :
    (contactRoute ⟨some n, some e, s, some b, none⟩ st t).2.messages
      = st.messages ++ [⟨n, e, s, b, some t⟩] := by
  simp [contactRoute, parseMessage, hv, create_documentMessage, hcon, hf]

/-- Witness for `contact_created_at_server_assigned` at a concrete
request, store and clock. -/
theorem contact_created_at_server_assigned_witness :
    (contactRoute ⟨some "Ada", some "ada@example.com", none, some "Hello", none⟩
        ⟨true, none, [], []⟩ 5).2.messages
      = [] ++ [⟨"Ada", "ada@example.com", none, "Hello", some 5⟩] :=
  contact_created_at_server_assigned "Ada" "ada@example.com" "Hello" none
    ⟨true, none, [], []⟩ 5 (by decide) rfl rfl

/-- Claim C7, counterexample: on a store write failure the 500 response
carries the failure's description in full — here a 62-character message is
carried verbatim, so the detail is not a truncation of it. -/
theorem contact_full_detail_counterexample :
    (contactRoute ⟨some "Ada", some "ada@example.com", none, some "Hello", none⟩
        ⟨true, some "connection pool exhausted while talking to the primary replica",
          [], []⟩ 0).1
      = .error ⟨500, "connection pool exhausted while talking to the primary replica"⟩ ∧
    50 < ("connection pool exhausted while talking to the primary replica" : String).length ∧
    ("connection pool exhausted while talking to the primary replica" : String).take 50
      ≠ "connection pool exhausted while talking to the primary replica" :=
  ⟨rfl, by decide, by decide⟩

/-- Claim C7 (amended): on POST /contact and POST /interactions, input
failing validation is rejected with 422 and the store state is untouched;
when the store insert fails, the handler returns a 500 carrying the
failure's description in full (str(e), not truncated) instead of letting
the exception propagate. -/
theorem write_paths_error_mapping :
    (∀ raw st t, parseMessage raw = .error () →
       contactRoute raw st t = (.error ⟨422, validationDetail⟩, st)) ∧
    (∀ raw st t m e, parseMessage raw = .ok m → st.connected = true →
       st.failWrite = some e →
       contactRoute raw st t = (.error ⟨500, e⟩, st)) ∧
    (∀ raw st t, parseInteraction raw = .error () →
       interactionRoute raw st t = (.error ⟨422, validationDetail⟩, st)) ∧
    (∀ raw st t p e, parseInteraction raw = .ok p → st.connected = true →
       st.failWrite = some e →
       interactionRoute raw st t = (.error ⟨500, e⟩, st)) := by
  refine ⟨?_, ?_, ?_, ?_⟩
  · intro raw st t hp; simp [contactRoute, hp]
  · intro raw st t m e hp hcon hf
    simp [contactRoute, hp, create_documentMessage, hcon, hf]
  · intro raw st t hp; simp [interactionRoute, hp]
  · intro raw st t p e hp hcon hf
    simp [interactionRoute, hp, create_documentInteraction, hcon, hf]

/-- Witness for `write_paths_error_mapping`: a malformed email is rejected
with 422 leaving the store unchanged, and a failing insert yields a 500
carrying the failure string, on both write endpoints. -/
theorem write_paths_error_mapping_witness :
    contactRoute ⟨some "Bob", some "not-an-email", none, some "hi", none⟩
        ⟨true, none, [], []⟩ 0
      = (.error ⟨422, validationDetail⟩, ⟨true, none, [], []⟩) ∧
    contactRoute ⟨some "Ada", some "ada@example.com", none, some "Hello", none⟩
        ⟨true, some "boom", [], []⟩ 0
      = (.error ⟨500, "boom"⟩, ⟨true, some "boom", [], []⟩) ∧
    interactionRoute ⟨none, none, none, none, none⟩ ⟨true, none, [], []⟩ 0
      = (.error ⟨422, validationDetail⟩, ⟨true, none, [], []⟩) ∧
    interactionRoute ⟨some "s1", some "click", none, none, none⟩
        ⟨true, some "boom", [], []⟩ 0
      = (.error ⟨500, "boom"⟩, ⟨true, some "boom", [], []⟩) :=
  ⟨write_paths_error_mapping.1 _ _ 0 rfl,
   write_paths_error_mapping.2.1 _ _ 0 _ "boom" rfl rfl rfl,
   write_paths_error_mapping.2.2.1 _ _ 0 rfl,
   write_paths_error_mapping.2.2.2 _ _ 0 _ "boom" rfl rfl rfl⟩

/-- Claim C8: the interaction record handed to the store has created_at
set server-side to the current time; a caller-supplied created_at member
is ignored (the response and resulting store state are identical whether
or not one was sent). -/
theorem interaction_created_at_server_side :
    (∀ (raw : RawInteraction) (st : Store) (t c : Nat),
       interactionRoute { raw with created_at := some c } st t
         = interactionRoute { raw with created_at := none } st t) ∧
    (∀ (s e : String) (v p : Option String) (c : Option Nat) (st : Store) (t : Nat),
       st.connected = true → st.failWrite = none →
       (interactionRoute ⟨some s, some e, v, p, c⟩ st t).2.interactions
         = st.interactions ++ [⟨s, e, v, p, some t⟩]) := by
  constructor
  · intro raw st t c; rfl
  · intro s e v p c st t hcon hf
    simp [interactionRoute, parseInteraction, create_documentInteraction, hcon, hf]

/-- Witness for `interaction_created_at_server_side`: posting
session "s1", event "click" with an attempted created_at of 999 stores
created_at 7, the server clock. -/
theorem interaction_created_at_server_side_witness :
    interactionRoute ⟨some "s1", some "click", none, none, some 999⟩
        ⟨true, none, [], []⟩ 7
      = interactionRoute ⟨some "s1", some "click", none, none, none⟩
          ⟨true, none, [], []⟩ 7 ∧
    (interactionRoute ⟨some "s1", some "click", none, none, some 999⟩
        ⟨true, none, [], []⟩ 7).2.interactions
      = [] ++ [⟨"s1", "click", none, none, some 7⟩] :=
  ⟨interaction_created_at_server_side.1 ⟨some "s1", some "click", none, none, none⟩
     ⟨true, none, [], []⟩ 7 999,
   interaction_created_at_server_side.2 "s1" "click" none none (some 999)
     ⟨true, none, [], []⟩ 7 rfl rfl⟩

/-- Claim C9: GET /schema has an entry for each record kind used by the
API surface, and each entry's required-field list is exactly the kind's
declared required fields. -/
theorem schema_entries_required_fields :
    get_schema.lookup "Message" = some ["name", "email", "body"] ∧
    get_schema.lookup "Interaction" = some ["session_id", "event"] ∧
    get_schema.lookup "Testimonial" = some ["author", "quote"] ∧
    get_schema.lookup "Project" = some ["title", "description"] :=
  ⟨rfl, rfl, rfl, rfl⟩

/-- Claim C10: the suggestion generator treats a supplied empty-string
message, subject or name exactly like an absent one; in particular an
all-empty request gets the default subject and the "Hi there," greeting
with no excerpt sentence. -/
theorem ai_empty_string_like_absent (p : SuggestionRequest) :
    aiSuggest { p with message := some "" } = aiSuggest { p with message := none } ∧
    aiSuggest { p with subject := some "" } = aiSuggest { p with subject := none } ∧
    aiSuggest { p with name := some "" } = aiSuggest { p with name := none } ∧
    (aiSuggest ⟨some "", none, some "", some ""⟩).subject = letsConnect ∧
    (aiSuggest ⟨some "", none, some "", some ""⟩).message = bodyTemplate "there" "" :=
  ⟨rfl, rfl, rfl, rfl, rfl⟩

end Portfolio
